import Mathlib

/-!
Shallow embedding of `src/python_template/logging/_logging.py`.

The module manages a library-scoped logging configuration:

* a module-level slot `_default_handler` holding at most one default handler;
* `_configure_library_root_logger` performing idempotent first-time setup of
  the library root logger (attach default handler, level `INFO`,
  `propagate = False`);
* `enable_default_handler` / `disable_default_handler` attaching/detaching the
  slot's handler (both `assert _default_handler is not None` after
  configuration);
* `get_child_logger` validating a dotted name with
  `re.match(rf"python_template\.(.+)", name)` or the literal `"__main__"`,
  raising `ValueError` otherwise;
* context managers `catch_default_handler` (shared class-level `NullHandler`
  placeholder) and `catch_all_handler` (per-instance snapshot/restore).

Handlers are identified by object identity: Python's `Logger.addHandler`
appends the handler to `logger.handlers` only if it is not already in the
list, and `Logger.removeHandler` removes the first occurrence if present
(`logging.Handler` does not override `__eq__`, so list membership is object
identity).  We model identities as `HRef` values carrying a creation counter
`nextId`; the configuration carried by the default handler object is modelled
separately by `HandlerObj`.  The environment probe `_color_supported()` is an
external boolean input and is passed as the parameter `colorSupported`.
-/

deriving instance DecidableEq for Except

namespace PyTemplateLogging

/-- Rendering template kind produced by `create_default_formatter`:
`colorlog.ColoredFormatter` versus plain `logging.Formatter`. -/
inductive FormatterKind
  | colored
  | plain
deriving DecidableEq

/-- Sink kind of a handler: `StreamHandler()` defaults to `sys.stderr`;
`FileHandler` (and subclasses) are file-backed; other streams exist too.
`isinstance(handler, FileHandler)` is modelled by the sink being `file`. -/
inductive Sink
  | stderr
  | otherStream
  | file
deriving DecidableEq

/-- A handler object's configurable content: its sink kind, its minimum
severity level and its formatter (none until `setFormatter` is called). -/
structure HandlerObj where
  sink : Sink
  level : Nat
  formatter : Option FormatterKind
deriving DecidableEq

/-- `logging.NOTSET` -/
def NOTSET : Nat := 0

/-- `logging.INFO` -/
def INFO : Nat := 20

/-- `_is_file_handler(handler)`: `isinstance(handler, FileHandler)`. -/
def _is_file_handler (h : HandlerObj) : Bool :=
  h.sink == Sink.file

/-- `create_default_formatter(use_color)`.  `colorSupported` is the result of
the environment probe `_color_supported()` (external: colorlog availability,
`NO_COLOR`, stderr tty).  The code computes
`should_use_color = (use_color is None and _color_supported()) or
(use_color is True and _color_supported())` and returns a
`ColoredFormatter` or a plain `Formatter` accordingly. -/
def create_default_formatter (use_color : Option Bool) (colorSupported : Bool) :
    FormatterKind :=
  if (use_color == none && colorSupported)
      || (use_color == some true && colorSupported) then
    FormatterKind.colored
  else
    FormatterKind.plain

/-- `get_handler(handler, formatter=None, level=NOTSET)`: sets the handler's
level; if `formatter` is omitted, picks
`use_color = None if not _is_file_handler(handler) else False` and calls
`create_default_formatter`; sets the formatter; returns the handler. -/
def get_handler (h : HandlerObj) (formatter : Option FormatterKind)
    (level : Nat) (colorSupported : Bool) : HandlerObj :=
  let h1 : HandlerObj := { h with level := level }
  match formatter with
  | some f => { h1 with formatter := some f }
  | none =>
      let use_color : Option Bool :=
        if !(_is_file_handler h1) then none else some false
      { h1 with
          formatter := some (create_default_formatter use_color colorSupported) }

/-- `_create_default_handler()`: `get_handler(StreamHandler())`.
`StreamHandler()` defaults to `sys.stderr`, level `NOTSET`, no formatter. -/
def _create_default_handler (colorSupported : Bool) : HandlerObj :=
  get_handler { sink := Sink.stderr, level := NOTSET, formatter := none }
    none NOTSET colorSupported

/-- Object identity of a handler attached to the root logger:
`mk n` is the n-th created stream handler (in particular the default
handler), `nullShared` is the class attribute
`catch_default_handler.null_handler` (a single shared `NullHandler()`), and
`nullInst n` is the `NullHandler()` created afresh by a
`catch_all_handler.__enter__` call. -/
inductive HRef
  | mk (n : Nat)
  | nullShared
  | nullInst (n : Nat)
deriving DecidableEq

/-- `h.ltId k` says the identity `h` was allocated before counter value `k`
(the shared placeholder exists from module import, so it is always "old"). -/
def HRef.ltId : HRef → Nat → Bool
  | HRef.mk m, k => decide (m < k)
  | HRef.nullShared, _ => true
  | HRef.nullInst m, k => decide (m < k)

/-- Every handler identity in `l` was allocated before counter value `k`. -/
def Bounded (l : List HRef) (k : Nat) : Prop :=
  ∀ h ∈ l, HRef.ltId h k = true

instance (l : List HRef) (k : Nat) : Decidable (Bounded l k) :=
  List.decidableBAll _ l

/-- The process-wide state touched by the module: the slot
`_default_handler` (identity plus the object's configuration), the library
root logger's handler list, level and propagate flag, whether some ancestor
logger of the library root currently has handlers (used only by
`hasHandlers()`), the identity allocation counter, and the propagate flags
of the child loggers created by `get_child_logger` (keyed by dotted path). -/
structure LogState where
  defaultHandler : Option (Nat × HandlerObj)
  handlers : List HRef
  level : Nat
  propagate : Bool
  ancestorHas : Bool
  nextId : Nat
  children : List (List Char × Bool)
deriving DecidableEq

/-- `Logger.addHandler(h)`: append `h` only if not already present. -/
def addHandler (l : List HRef) (h : HRef) : List HRef :=
  if h ∈ l then l else l ++ [h]

/-- `Logger.removeHandler(h)`: remove the first occurrence if present. -/
def removeHandler (l : List HRef) (h : HRef) : List HRef :=
  if h ∈ l then l.erase h else l

/-- `Logger.hasHandlers()` walks up the hierarchy: true if the logger's own
list is non-empty, otherwise — only when `propagate` is set — if some
ancestor has handlers. -/
def hasHandlers (st : LogState) : Bool :=
  !st.handlers.isEmpty || (st.propagate && st.ancestorHas)

/-- `_configure_library_root_logger()`: a no-op when `_default_handler` is
already set (Python truthiness of a handler object); otherwise creates the
default handler, stores it in the slot, attaches it to the root logger, sets
the root level to `INFO` and `propagate = False`. -/
def _configure_library_root_logger (colorSupported : Bool) (st : LogState) :
    LogState :=
  match st.defaultHandler with
  | some _ => st
  | none =>
      let n := st.nextId
      let obj := _create_default_handler colorSupported
      { st with
          defaultHandler := some (n, obj)
          handlers := addHandler st.handlers (HRef.mk n)
          level := INFO
          propagate := false
          nextId := n + 1 }

/-- `get_library_root_logger()`: configure, then return the root logger
(the root logger's state is the `LogState` itself). -/
def get_library_root_logger (colorSupported : Bool) (st : LogState) :
    LogState :=
  _configure_library_root_logger colorSupported st

/-- `enable_default_handler()`: configure, `assert _default_handler is not
None` (`none` result models a failed assertion), then
`addHandler(_default_handler)`. -/
def enable_default_handler (colorSupported : Bool) (st : LogState) :
    Option LogState :=
  let st1 := _configure_library_root_logger colorSupported st
  match st1.defaultHandler with
  | none => none
  | some d =>
      some { st1 with handlers := addHandler st1.handlers (HRef.mk d.1) }

/-- `disable_default_handler()`: configure, assert, then
`removeHandler(_default_handler)`. -/
def disable_default_handler (colorSupported : Bool) (st : LogState) :
    Option LogState :=
  let st1 := _configure_library_root_logger colorSupported st
  match st1.defaultHandler with
  | none => none
  | some d =>
      some { st1 with handlers := removeHandler st1.handlers (HRef.mk d.1) }

/-- `_reset_library_root_logger()`: clear the slot, then the loop header
`get_library_root_logger().handlers.copy()` re-configures (creating a fresh
default handler), every handler in that copy is removed, and the final
`_configure_library_root_logger()` call is a no-op (the slot is populated). -/
def _reset_library_root_logger (colorSupported : Bool) (st : LogState) :
    LogState :=
  let st1 := get_library_root_logger colorSupported
    { st with defaultHandler := none }
  let st2 := { st1 with
    handlers := List.foldl removeHandler st1.handlers st1.handlers }
  _configure_library_root_logger colorSupported st2

/-- `_get_library_name()` = `__name__.split(".")[0]` = `"python_template"`. -/
def libName : List Char := ("python_template").toList

/-- The entry-script sentinel `"__main__"`. -/
def mainName : List Char := ("__main__").toList

/-- Strip a literal pattern from the front of the subject:
`stripLit p s = some r` iff `s = p ++ r`. -/
def stripLit : List Char → List Char → Option (List Char)
  | [], s => some s
  | _ :: _, [] => none
  | p :: ps, c :: cs => if c = p then stripLit ps cs else none

/-- `re.match(rf"python_template\.(.+)", name)`: anchored at the start, the
literal prefix `"python_template."` must be followed by at least one
character; `.` does not match a newline, and the greedy `(.+)` captures the
longest run of non-newline characters.  Returns group 1 on success. -/
def reMatchGroup1 (name : List Char) : Option (List Char) :=
  match stripLit (libName ++ ['.']) name with
  | none => none
  | some rest =>
      let g1 := rest.takeWhile (fun c => c != '\n')
      if g1.isEmpty then none else some g1

/-- Record the propagate flag of the child logger at `path`
(`child_logger.propagate = propagate`; the logger registry keeps one logger
per name, so an existing entry is overwritten). -/
def setChild (cls : List (List Char × Bool)) (path : List Char) (p : Bool) :
    List (List Char × Bool) :=
  match cls with
  | [] => [(path, p)]
  | (q, b) :: rest =>
      if q = path then (q, p) :: rest else (q, b) :: setChild rest path p

/-- Look up the recorded propagate flag of the child logger at `path`. -/
def lookupChild (cls : List (List Char × Bool)) (path : List Char) :
    Option Bool :=
  match cls with
  | [] => none
  | (q, b) :: rest => if q = path then some b else lookupChild rest path

/-- `get_child_logger(name, propagate=True)`: configures the root logger via
`get_library_root_logger()`; if the regex matches, returns
`root_logger.getChild(group(1))` — the logger named
`"python_template." + group(1)`; else if `name == "__main__"`, returns
`root_logger.getChild("__main__")`; otherwise raises
`ValueError("You should use '__name__'.")`.  The child's `propagate` flag is
assigned on every call.  Returns the child's dotted path and the new state. -/
def get_child_logger (colorSupported : Bool) (name : List Char)
    (propagate : Bool) (st : LogState) : Except Unit (List Char × LogState) :=
  let st1 := get_library_root_logger colorSupported st
  match reMatchGroup1 name with
  | some g1 =>
      let path := libName ++ '.' :: g1
      Except.ok (path, { st1 with children := setChild st1.children path propagate })
  | none =>
      if name = mainName then
        let path := libName ++ '.' :: mainName
        Except.ok (path, { st1 with children := setChild st1.children path propagate })
      else
        Except.error ()

/-- `catch_default_handler.__enter__`: `disable_default_handler()`; if the
root logger then has no handlers, attach the shared class-level
`null_handler` placeholder. -/
def cdEnter (colorSupported : Bool) (st : LogState) : Option LogState :=
  match disable_default_handler colorSupported st with
  | none => none
  | some st1 =>
      if hasHandlers st1 then some st1
      else some { st1 with handlers := addHandler st1.handlers HRef.nullShared }

/-- `catch_default_handler.__exit__`: `enable_default_handler()`; if the
shared placeholder is attached, remove it.  The method body ends by falling
off the end, i.e. it returns `None`. -/
def cdExit (colorSupported : Bool) (st : LogState) : Option LogState :=
  match enable_default_handler colorSupported st with
  | none => none
  | some st1 =>
      if HRef.nullShared ∈ st1.handlers then
        some { st1 with handlers := removeHandler st1.handlers HRef.nullShared }
      else some st1

/-- Truthiness of the value returned by `catch_default_handler.__exit__`:
the method returns `None`, so the `with` statement never suppresses the
in-flight exception. -/
def cdExitReturns : Bool := false

/-- Instance state of a `catch_all_handler`: `self.handlers` (the snapshot
copy) and `self.null_handler` (the per-instance fresh `NullHandler()`). -/
structure CatchAllCtx where
  handlers : List HRef
  null_handler : HRef
deriving DecidableEq

/-- `catch_all_handler.__enter__`: `self.root_logger =
get_library_root_logger()` (this configures), `self.handlers =
root.handlers.copy()`, `self.null_handler = NullHandler()` (fresh object),
then `removeHandler` of every snapshotted handler, and — the `for/else`
clause — `addHandler(self.null_handler)`. -/
def caEnter (colorSupported : Bool) (st : LogState) : CatchAllCtx × LogState :=
  let st1 := get_library_root_logger colorSupported st
  let snapshot := st1.handlers
  let nh := HRef.nullInst st1.nextId
  let st2 := { st1 with nextId := st1.nextId + 1 }
  let st3 := { st2 with
    handlers := List.foldl removeHandler st2.handlers snapshot }
  let st4 := { st3 with handlers := addHandler st3.handlers nh }
  (⟨snapshot, nh⟩, st4)

/-- `catch_all_handler.__exit__`: `addHandler` of every snapshotted handler
in original order, then — the `for/else` clause —
`removeHandler(self.null_handler)`. -/
def caExit (ctx : CatchAllCtx) (st : LogState) : LogState :=
  let st1 := { st with
    handlers := List.foldl addHandler st.handlers ctx.handlers }
  { st1 with handlers := removeHandler st1.handlers ctx.null_handler }

/-- `catch_all_handler.__exit__` always returns `None` (falsy): the `with`
statement never suppresses the in-flight exception. -/
def caExitReturns : Bool := false

/-- `with catch_default_handler(): <block>` where the block leaves the
logging state untouched and either completes (`exc = none`) or raises
(`exc = some ()`).  Per Python's `with` semantics `__exit__` always runs
(try/finally), and the exception is re-raised unless `__exit__` returned a
truthy value. -/
def runCatchDefault (colorSupported : Bool) (exc : Option Unit)
    (st : LogState) : Option (LogState × Option Unit) :=
  match cdEnter colorSupported st with
  | none => none
  | some st1 =>
      match cdExit colorSupported st1 with
      | none => none
      | some st2 => some (st2, if cdExitReturns then none else exc)

/-- `with catch_all_handler(): <block>` with the same block convention as
`runCatchDefault`. -/
def runCatchAll (colorSupported : Bool) (exc : Option Unit) (st : LogState) :
    LogState × Option Unit :=
  let p := caEnter colorSupported st
  let st2 := caExit p.1 p.2
  (st2, if caExitReturns then none else exc)

/-- The pristine initial state: `getLogger("python_template")` starts with no
handlers, level `NOTSET`, `propagate = True`; the slot is empty; no object
identity has been allocated; ancestors of the library root have no handlers. -/
def st0 : LogState :=
  { defaultHandler := none
    handlers := []
    level := NOTSET
    propagate := true
    ancestorHas := false
    nextId := 0
    children := [] }

/-- The state right after first-time configuration of `st0`. -/
def stCfg : LogState :=
  _configure_library_root_logger false st0

/-- A configured state whose default handler has been detached — the state
produced by `disable_default_handler()` after first-time configuration. -/
def stDetached : LogState :=
  { stCfg with handlers := [] }

/-! ### Helper lemmas -/

theorem addHandler_of_not_mem {l : List HRef} {h : HRef} (hm : h ∉ l) :
    addHandler l h = l ++ [h] := by
  simp [addHandler, hm]

theorem addHandler_of_mem {l : List HRef} {h : HRef} (hm : h ∈ l) :
    addHandler l h = l := by
  simp [addHandler, hm]

theorem removeHandler_eq_erase (l : List HRef) (h : HRef) :
    removeHandler l h = l.erase h := by
  by_cases hm : h ∈ l
  · simp [removeHandler, hm]
  · simp [removeHandler, hm, List.erase_of_not_mem hm]

theorem foldl_removeHandler_self (l : List HRef) :
    List.foldl removeHandler l l = [] := by
  induction l with
  | nil => rfl
  | cons a l ih =>
      rw [List.foldl_cons]
      have h1 : removeHandler (a :: l) a = l := by
        simp [removeHandler, List.erase_cons_head]
      rw [h1]
      exact ih

theorem foldl_addHandler_disjoint :
    ∀ (l acc : List HRef), l.Nodup → (∀ h ∈ l, h ∉ acc) →
      List.foldl addHandler acc l = acc ++ l := by
  intro l
  induction l with
  | nil => intro acc _ _; simp
  | cons a l ih =>
      intro acc hnd hdis
      rw [List.foldl_cons]
      have ha : a ∉ acc := hdis a (List.mem_cons_self a l)
      rw [addHandler_of_not_mem ha]
      have hnd' : l.Nodup := (List.nodup_cons.mp hnd).2
      have hna : a ∉ l := (List.nodup_cons.mp hnd).1
      have hdis' : ∀ h ∈ l, h ∉ acc ++ [a] := by
        intro h hh
        simp only [List.mem_append, List.mem_singleton]
        push_neg
        exact ⟨hdis h (List.mem_cons_of_mem a hh), fun he => hna (he ▸ hh)⟩
      rw [ih (acc ++ [a]) hnd' hdis']
      simp

theorem configure_of_some {cs : Bool} {st : LogState}
    (h : (st.defaultHandler).isSome = true) :
    _configure_library_root_logger cs st = st := by
  rcases hd : st.defaultHandler with _ | d
  · rw [hd] at h; simp at h
  · simp [_configure_library_root_logger, hd]

theorem configure_slot_isSome (cs : Bool) (st : LogState) :
    ((_configure_library_root_logger cs st).defaultHandler).isSome = true := by
  rcases hd : st.defaultHandler with _ | d
  · simp [_configure_library_root_logger, hd]
  · simp [_configure_library_root_logger, hd]

theorem configure_configure (cs : Bool) (st : LogState) :
    _configure_library_root_logger cs (_configure_library_root_logger cs st)
      = _configure_library_root_logger cs st :=
  configure_of_some (configure_slot_isSome cs st)

theorem configure_iterate (cs : Bool) (st : LogState) (n : Nat) :
    (_configure_library_root_logger cs)^[n]
        (_configure_library_root_logger cs st)
      = _configure_library_root_logger cs st := by
  induction n with
  | zero => rfl
  | succ n ih =>
      rw [Function.iterate_succ_apply, configure_configure]
      exact ih

theorem mk_notMem_of_bounded {l : List HRef} {k : Nat} (hb : Bounded l k) :
    HRef.mk k ∉ l := by
  intro hm
  have := hb _ hm
  simp [HRef.ltId] at this

theorem nullInst_notMem_of_bounded {l : List HRef} {k : Nat}
    (hb : Bounded l k) : HRef.nullInst k ∉ l := by
  intro hm
  have := hb _ hm
  simp [HRef.ltId] at this

theorem bounded_mono {l : List HRef} {k k' : Nat} (hb : Bounded l k)
    (hk : k ≤ k') : Bounded l k' := by
  intro h hm
  have := hb h hm
  cases h <;> simp [HRef.ltId] at this ⊢ <;> omega

theorem stripLit_eq_some {p s r : List Char} :
    stripLit p s = some r ↔ s = p ++ r := by
  induction p generalizing s with
  | nil => simp [stripLit]
  | cons a p ih =>
      cases s with
      | nil => simp [stripLit]
      | cons b s =>
          by_cases hba : b = a
          · subst hba
            simp [stripLit, ih]
          · simp [stripLit, hba]

theorem reMatchGroup1_isSome_iff {name : List Char} :
    (reMatchGroup1 name).isSome = true
      ↔ ∃ c rest, c ≠ '\n' ∧ name = libName ++ '.' :: c :: rest := by
  unfold reMatchGroup1
  rcases hs : stripLit (libName ++ ['.']) name with _ | rest
  · constructor
    · intro h; simp at h
    · rintro ⟨c, rest, _, he⟩
      have hsome : stripLit (libName ++ ['.']) name = some (c :: rest) :=
        stripLit_eq_some.mpr (by rw [he]; simp)
      rw [hs] at hsome
      exact Option.noConfusion hsome
  · have hname : name = (libName ++ ['.']) ++ rest := stripLit_eq_some.mp hs
    cases rest with
    | nil =>
        constructor
        · intro h; simp at h
        · rintro ⟨c, rest, _, he⟩
          rw [hname] at he
          simp at he
    | cons c rest' =>
        by_cases hc : c = '\n'
        · subst hc
          constructor
          · intro h; simp at h
          · rintro ⟨c', rest'', hc', he⟩
            rw [hname] at he
            simp at he
            exact ((hc' he.1.symm).elim)
        · constructor
          · intro _
            exact ⟨c, rest', hc, by rw [hname]; simp⟩
          · intro _
            simp [List.takeWhile_cons, hc]

theorem get_child_logger_ne_error_of_some {cs : Bool} {st : LogState}
    {name : List Char} {p : Bool} {g1 : List Char}
    (h : reMatchGroup1 name = some g1) :
    get_child_logger cs name p st ≠ Except.error () := by
  unfold get_child_logger
  rw [h]
  simp

theorem get_child_logger_main_of_none {cs : Bool} {st : LogState}
    {name : List Char} {p : Bool}
    (h : reMatchGroup1 name = none) (hm : name = mainName) :
    get_child_logger cs name p st ≠ Except.error () := by
  unfold get_child_logger
  rw [h]
  simp [hm]

theorem get_child_logger_error_of_none {cs : Bool} {st : LogState}
    {name : List Char} {p : Bool}
    (h : reMatchGroup1 name = none) (hm : name ≠ mainName) :
    get_child_logger cs name p st = Except.error () := by
  unfold get_child_logger
  rw [h]
  simp [hm]

/-- Claim C4, counterexample: the name `"python_template."` IS prefixed by the
library's top-level namespace segment followed by the dot separator (it is
literally that prefix), and is not `"__main__"`, yet `get_child_logger`
raises `ValueError`: the regex `python_template\.(.+)` demands at least one
character after the dot.  The claim as stated says no error is raised for
such a name. -/
theorem claim4_counterexample :
    ("python_template.").toList = libName ++ ['.']
    ∧ ("python_template.").toList ≠ mainName
    ∧ get_child_logger false (("python_template.").toList) true st0
        = Except.error () := by
  refine ⟨by decide, by decide, by decide⟩

/-- Claim C4, amended: `get_child_logger(name)` raises the `ValueError` exactly
when `name` is neither of the form `"python_template."` followed by at
least one character other than a newline, nor equal to `"__main__"`; the
error is surfaced to the caller (returned, never recovered), and for every
name of that valid form no error is raised. -/
theorem claim4_invalid_namespace_iff (cs : Bool) (st : LogState)
    (name : List Char) (p : Bool) :
    get_child_logger cs name p st = Except.error ()
      ↔ ¬((∃ c rest, c ≠ '\n' ∧ name = libName ++ '.' :: c :: rest)
          ∨ name = mainName) := by
  constructor
  · intro herr habs
    rcases habs with hex | hmain
    · rcases ho : reMatchGroup1 name with _ | g1
      · have hsome := reMatchGroup1_isSome_iff.mpr hex
        rw [ho] at hsome
        simp at hsome
      · exact get_child_logger_ne_error_of_some ho herr
    · rcases ho : reMatchGroup1 name with _ | g1
      · exact get_child_logger_main_of_none ho hmain herr
      · exact get_child_logger_ne_error_of_some ho herr
  · intro hni
    rcases ho : reMatchGroup1 name with _ | g1
    · exact get_child_logger_error_of_none ho (fun h => hni (Or.inr h))
    · exact absurd
        (Or.inl (reMatchGroup1_isSome_iff.mp (by rw [ho]; rfl))) hni

/-- Claim C6: from the Unconfigured state (empty slot, no handlers on the root
logger), the first `get_library_root_logger()` call leaves the root logger
with exactly one attached handler — the freshly created default handler,
which is also stored in the slot — its level set to `INFO`, and
`propagate = False`; and the created default handler is a `StreamHandler`
bound to `sys.stderr`. -/
theorem claim6_first_access_configures (cs : Bool) (st : LogState)
    (hd : st.defaultHandler = none) (hh : st.handlers = []) :
    (get_library_root_logger cs st).handlers = [HRef.mk st.nextId]
    ∧ (get_library_root_logger cs st).level = INFO
    ∧ (get_library_root_logger cs st).propagate = false
    ∧ (get_library_root_logger cs st).defaultHandler
        = some (st.nextId, _create_default_handler cs)
    ∧ (_create_default_handler cs).sink = Sink.stderr := by
  refine ⟨?_, ?_, ?_, ?_, rfl⟩ <;>
    simp [get_library_root_logger, _configure_library_root_logger, hd, hh,
      addHandler]

theorem claim6_witness :
    st0.defaultHandler = none ∧ st0.handlers = []
    ∧ (get_library_root_logger false st0).handlers = [HRef.mk 0]
    ∧ (get_library_root_logger false st0).level = INFO
    ∧ (get_library_root_logger false st0).propagate = false :=
  ⟨rfl, rfl, (claim6_first_access_configures false st0 rfl rfl).1,
    (claim6_first_access_configures false st0 rfl rfl).2.1,
    (claim6_first_access_configures false st0 rfl rfl).2.2.1⟩

/-- Claim C8: for every file-backed handler passed to `get_handler` with the
formatter omitted, the formatter applied is the plain (non-color) one,
whatever the outcome of the `_color_supported()` probe. -/
theorem claim8_file_sink_formatter_plain (h : HandlerObj) (lvl : Nat)
    (colorSupported : Bool) (hf : _is_file_handler h = true) :
    (get_handler h none lvl colorSupported).formatter
      = some FormatterKind.plain := by
  have hf1 : _is_file_handler { h with level := lvl } = true := hf
  simp [get_handler, hf1, create_default_formatter]

theorem claim8_witness :
    _is_file_handler { sink := Sink.file, level := 0, formatter := none } = true
    ∧ (get_handler { sink := Sink.file, level := 0, formatter := none }
        none 5 true).formatter = some FormatterKind.plain :=
  ⟨by decide,
    claim8_file_sink_formatter_plain
      { sink := Sink.file, level := 0, formatter := none } 5 true (by decide)⟩

/-- Claim C9: the `assert _default_handler is not None` in
`enable_default_handler` and `disable_default_handler` never fails: in every
state, after `_configure_library_root_logger` returns, the slot is non-None,
so both operations return a state (the `none` branch modelling a failed
assertion is unreachable). -/
theorem claim9_slot_assert_never_fails (cs : Bool) (st : LogState) :
    ((_configure_library_root_logger cs st).defaultHandler).isSome = true
    ∧ (enable_default_handler cs st).isSome = true
    ∧ (disable_default_handler cs st).isSome = true := by
  refine ⟨configure_slot_isSome cs st, ?_, ?_⟩
  · rcases hd : (_configure_library_root_logger cs st).defaultHandler with _ | d
    · have h2 := configure_slot_isSome cs st
      rw [hd] at h2
      simp at h2
    · simp [enable_default_handler, hd]
  · rcases hd : (_configure_library_root_logger cs st).defaultHandler with _ | d
    · have h2 := configure_slot_isSome cs st
      rw [hd] at h2
      simp at h2
    · simp [disable_default_handler, hd]

theorem enable_slot_eq {cs : Bool} {st st' : LogState}
    (h : enable_default_handler cs st = some st') :
    st'.defaultHandler = (_configure_library_root_logger cs st).defaultHandler := by
  unfold enable_default_handler at h
  simp only [] at h
  rcases hd : (_configure_library_root_logger cs st).defaultHandler with _ | d
  · rw [hd] at h
    exact Option.noConfusion h
  · rw [hd] at h
    simp at h
    rw [← h]

theorem disable_slot_eq {cs : Bool} {st st' : LogState}
    (h : disable_default_handler cs st = some st') :
    st'.defaultHandler = (_configure_library_root_logger cs st).defaultHandler := by
  unfold disable_default_handler at h
  simp only [] at h
  rcases hd : (_configure_library_root_logger cs st).defaultHandler with _ | d
  · rw [hd] at h
    exact Option.noConfusion h
  · rw [hd] at h
    simp at h
    rw [← h]

theorem cdEnter_slot_eq {cs : Bool} {st st' : LogState}
    (h : cdEnter cs st = some st') :
    st'.defaultHandler = (_configure_library_root_logger cs st).defaultHandler := by
  unfold cdEnter at h
  rcases hdis : disable_default_handler cs st with _ | st1
  · rw [hdis] at h
    exact Option.noConfusion h
  · rw [hdis] at h
    have h1 := disable_slot_eq hdis
    by_cases hh : hasHandlers st1 <;> simp [hh] at h <;> rw [← h] <;> exact h1

theorem cdExit_slot_eq {cs : Bool} {st st' : LogState}
    (h : cdExit cs st = some st') :
    st'.defaultHandler = (_configure_library_root_logger cs st).defaultHandler := by
  unfold cdExit at h
  rcases hen : enable_default_handler cs st with _ | st1
  · rw [hen] at h
    exact Option.noConfusion h
  · rw [hen] at h
    have h1 := enable_slot_eq hen
    by_cases hh : HRef.nullShared ∈ st1.handlers <;> simp [hh] at h <;>
      rw [← h] <;> exact h1

theorem caEnter_slot_eq (cs : Bool) (st : LogState) :
    (caEnter cs st).2.defaultHandler
      = (_configure_library_root_logger cs st).defaultHandler := rfl

theorem caExit_slot_eq (ctx : CatchAllCtx) (st : LogState) :
    (caExit ctx st).defaultHandler = st.defaultHandler := rfl

theorem get_child_logger_eq_some {cs : Bool} {st : LogState}
    {name : List Char} {p : Bool} {g1 : List Char}
    (h : reMatchGroup1 name = some g1) :
    get_child_logger cs name p st
      = Except.ok (libName ++ '.' :: g1,
          { get_library_root_logger cs st with
              children := setChild (get_library_root_logger cs st).children
                (libName ++ '.' :: g1) p }) := by
  unfold get_child_logger
  rw [h]

theorem get_child_logger_slot_eq {cs : Bool} {st : LogState}
    {name : List Char} {p : Bool} {q : List Char} {st' : LogState}
    (h : get_child_logger cs name p st = Except.ok (q, st')) :
    st'.defaultHandler = (_configure_library_root_logger cs st).defaultHandler := by
  rcases ho : reMatchGroup1 name with _ | g1
  · unfold get_child_logger at h
    rw [ho] at h
    by_cases hm : name = mainName
    · simp [hm] at h
      rw [← h.2]
      rfl
    · simp [hm] at h
  · rw [get_child_logger_eq_some ho] at h
    simp at h
    rw [← h.2]
    rfl

/-- Claim C1: `_configure_library_root_logger` is idempotent — any number of calls
equals one call, so the slot is identity-equal across calls — it always
leaves the slot populated, it is a strict no-op when the slot is populated,
a single call allocates at most one handler identity, and once the slot is
populated no operation of the module other than reset changes it: the
default handler is created exactly once per process lifetime. -/
theorem claim1_idempotent_singleton (cs : Bool) (st : LogState) (n : Nat) :
    (_configure_library_root_logger cs)^[n + 1] st
        = _configure_library_root_logger cs st
    ∧ ((_configure_library_root_logger cs st).defaultHandler).isSome = true
    ∧ ((st.defaultHandler).isSome = true →
        _configure_library_root_logger cs st = st)
    ∧ (_configure_library_root_logger cs st).nextId ≤ st.nextId + 1
    ∧ (∀ d, st.defaultHandler = some d →
        (_configure_library_root_logger cs st).defaultHandler = some d
        ∧ (∀ st', enable_default_handler cs st = some st' →
            st'.defaultHandler = some d)
        ∧ (∀ st', disable_default_handler cs st = some st' →
            st'.defaultHandler = some d)
        ∧ (∀ st', cdEnter cs st = some st' → st'.defaultHandler = some d)
        ∧ (∀ st', cdExit cs st = some st' → st'.defaultHandler = some d)
        ∧ ((caEnter cs st).2.defaultHandler = some d)
        ∧ (∀ ctx, (caExit ctx st).defaultHandler = some d)
        ∧ (∀ name p q st',
            get_child_logger cs name p st = Except.ok (q, st') →
              st'.defaultHandler = some d)) := by
  refine ⟨?_, configure_slot_isSome cs st, fun h => configure_of_some h, ?_, ?_⟩
  · rw [Function.iterate_succ_apply]
    exact configure_iterate cs st n
  · rcases hd : st.defaultHandler with _ | d
    · have hn : (_configure_library_root_logger cs st).nextId = st.nextId + 1 := by
        simp [_configure_library_root_logger, hd]
      omega
    · have he : _configure_library_root_logger cs st = st :=
        configure_of_some (by rw [hd]; rfl)
      rw [he]
      omega
  · intro d hd
    have hcfg : _configure_library_root_logger cs st = st :=
      configure_of_some (by rw [hd]; rfl)
    refine ⟨by rw [hcfg]; exact hd, ?_, ?_, ?_, ?_, ?_, ?_, ?_⟩
    · intro st' h
      rw [enable_slot_eq h, hcfg]
      exact hd
    · intro st' h
      rw [disable_slot_eq h, hcfg]
      exact hd
    · intro st' h
      rw [cdEnter_slot_eq h, hcfg]
      exact hd
    · intro st' h
      rw [cdExit_slot_eq h, hcfg]
      exact hd
    · rw [caEnter_slot_eq, hcfg]
      exact hd
    · intro ctx
      rw [caExit_slot_eq]
      exact hd
    · intro name p q st' h
      rw [get_child_logger_slot_eq h, hcfg]
      exact hd

theorem claim1_witness :
    (_configure_library_root_logger false)^[3] stCfg
        = _configure_library_root_logger false stCfg
    ∧ (_configure_library_root_logger false stCfg).defaultHandler
        = some (0, _create_default_handler false) :=
  ⟨(claim1_idempotent_singleton false stCfg 2).1,
   ((claim1_idempotent_singleton false stCfg 2).2.2.2.2
      (0, _create_default_handler false) (by decide)).1⟩

/-- Claim C3, counterexample: from the Unconfigured state (no handlers attached),
`disable_default_handler(); enable_default_handler()` does NOT restore the
root logger's handler set: the handler list goes from `[]` to one handler
(the disable call's lazy configuration creates the default handler, the
disable detaches it, and the enable re-attaches it). -/
theorem claim3_counterexample :
    st0.handlers = []
    ∧ ((disable_default_handler false st0).bind
        (enable_default_handler false)).map (fun s => s.handlers)
      = some [HRef.mk 0]
    ∧ ([HRef.mk 0] : List HRef) ≠ [] := by
  refine ⟨rfl, by decide, by decide⟩

/-- Claim C3, amended: for every state in which the default-handler slot is
populated and the slot's handler occurs exactly once in the root logger's
handler list, `disable_default_handler(); enable_default_handler()` leaves
the root logger's handler set equal to what it was before the disable call
up to permutation — same members, same count (the default handler may move
to the end of the list). -/
theorem claim3_disable_enable_roundtrip (cs : Bool) (st : LogState)
    (n : Nat) (obj : HandlerObj)
    (hd : st.defaultHandler = some (n, obj))
    (hc : List.count (HRef.mk n) st.handlers = 1) :
    ∃ st', (disable_default_handler cs st).bind (enable_default_handler cs)
        = some st'
      ∧ st'.handlers.Perm st.handlers := by
  have hcfg : _configure_library_root_logger cs st = st :=
    configure_of_some (by rw [hd]; rfl)
  have hmem : HRef.mk n ∈ st.handlers := List.count_pos_iff.mp (by omega)
  have hnm : HRef.mk n ∉ st.handlers.erase (HRef.mk n) := by
    intro hmm
    have h1 := List.count_erase_self (HRef.mk n) st.handlers
    have h2 := List.count_pos_iff.mpr hmm
    omega
  refine ⟨{ st with
      handlers := st.handlers.erase (HRef.mk n) ++ [HRef.mk n] }, ?_, ?_⟩
  · simp [disable_default_handler, enable_default_handler,
      _configure_library_root_logger, hd, removeHandler_eq_erase,
      addHandler, hnm]
  · exact (List.perm_append_singleton _ _).trans
      (List.perm_cons_erase hmem).symm

theorem claim3_witness :
    stCfg.defaultHandler = some (0, _create_default_handler false)
    ∧ List.count (HRef.mk 0) stCfg.handlers = 1
    ∧ ∃ st', (disable_default_handler false stCfg).bind
        (enable_default_handler false) = some st'
      ∧ st'.handlers.Perm stCfg.handlers :=
  ⟨by decide, by decide,
    claim3_disable_enable_roundtrip false stCfg 0
      (_create_default_handler false) (by decide) (by decide)⟩

theorem lookupChild_setChild (cls : List (List Char × Bool))
    (path : List Char) (p : Bool) :
    lookupChild (setChild cls path p) path = some p := by
  induction cls with
  | nil => simp [setChild, lookupChild]
  | cons qb rest ih =>
      obtain ⟨q, b⟩ := qb
      by_cases hq : q = path
      · simp [setChild, lookupChild, hq]
      · simp [setChild, lookupChild, hq, ih]

/-- Claim C7, counterexample: resolving `"python_template.sub"` yields the logger
at dotted path `"python_template.sub"` — the child sits directly beneath
the root node, whose path is the namespace segment itself — not at
`"python_template.root.sub"` as the spec's scenario (`mylib.sub` →
`mylib.root.sub`) states. -/
theorem claim7_counterexample :
    (get_child_logger false (("python_template.sub").toList) true st0).toOption.map
        (fun r => r.1)
      = some (("python_template.sub").toList)
    ∧ ¬ ((get_child_logger false (("python_template.sub").toList) true st0).toOption.map
          (fun r => r.1)
        = some (("python_template.root.sub").toList)) := by
  refine ⟨by decide, by decide⟩

/-- Claim C7, amended: for every name accepted by the namespace regex, with
captured suffix `g1`, `get_child_logger(name, propagate)` returns the
logger at path `"python_template." + g1` directly beneath the root, and
sets that child's propagation flag to the requested value on every call:
after a second resolve of the same name with a different flag, the child
carries the second flag (last resolve wins; not sticky). -/
theorem claim7_child_path_and_propagate (cs : Bool) (st : LogState)
    (name g1 : List Char) (p1 p2 : Bool)
    (h : reMatchGroup1 name = some g1) :
    ∃ st1 st2,
      get_child_logger cs name p1 st = Except.ok (libName ++ '.' :: g1, st1)
      ∧ lookupChild st1.children (libName ++ '.' :: g1) = some p1
      ∧ get_child_logger cs name p2 st1 = Except.ok (libName ++ '.' :: g1, st2)
      ∧ lookupChild st2.children (libName ++ '.' :: g1) = some p2 :=
  ⟨_, _, get_child_logger_eq_some h, lookupChild_setChild _ _ _,
    get_child_logger_eq_some h, lookupChild_setChild _ _ _⟩

theorem claim7_witness :
    reMatchGroup1 (("python_template.sub").toList) = some (("sub").toList)
    ∧ ∃ st1 st2,
        get_child_logger false (("python_template.sub").toList) true st0
          = Except.ok (libName ++ '.' :: ("sub").toList, st1)
        ∧ lookupChild st1.children (libName ++ '.' :: ("sub").toList) = some true
        ∧ get_child_logger false (("python_template.sub").toList) false st1
          = Except.ok (libName ++ '.' :: ("sub").toList, st2)
        ∧ lookupChild st2.children (libName ++ '.' :: ("sub").toList) = some false :=
  ⟨by decide,
    claim7_child_path_and_propagate false st0 (("python_template.sub").toList)
      (("sub").toList) true false (by decide)⟩

/-- Claim C10: all `catch_default_handler` instances share one placeholder — the
class attribute `null_handler` — so with two nested scopes over a root
logger that carries exactly the default handler, the outer enter attaches
the shared placeholder, the inner enter leaves it, and the inner scope's
exit detaches the one shared placeholder even though it was the outer scope
that attached it (the default handler alone remains). -/
theorem claim10_shared_placeholder (cs : Bool) (st : LogState) (n : Nat)
    (obj : HandlerObj) (hd : st.defaultHandler = some (n, obj))
    (hh : st.handlers = [HRef.mk n]) (hp : st.propagate = false) :
    ∃ st1 st2 st3,
      cdEnter cs st = some st1 ∧ st1.handlers = [HRef.nullShared]
      ∧ cdEnter cs st1 = some st2 ∧ st2.handlers = [HRef.nullShared]
      ∧ cdExit cs st2 = some st3
      ∧ HRef.nullShared ∉ st3.handlers ∧ st3.handlers = [HRef.mk n] := by
  refine ⟨{ st with handlers := [HRef.nullShared] },
    { st with handlers := [HRef.nullShared] },
    { st with handlers := [HRef.mk n] }, ?_, rfl, ?_, rfl, ?_, by simp, rfl⟩
  · simp [cdEnter, disable_default_handler, _configure_library_root_logger,
      hd, hh, hp, removeHandler, hasHandlers, addHandler]
  · simp [cdEnter, disable_default_handler, _configure_library_root_logger,
      hd, hp, removeHandler, hasHandlers, addHandler]
  · simp [cdExit, enable_default_handler, _configure_library_root_logger,
      hd, removeHandler, addHandler]

theorem claim10_witness :
    stCfg.defaultHandler = some (0, _create_default_handler false)
    ∧ stCfg.handlers = [HRef.mk 0]
    ∧ stCfg.propagate = false
    ∧ ∃ st1 st2 st3,
        cdEnter false stCfg = some st1 ∧ st1.handlers = [HRef.nullShared]
        ∧ cdEnter false st1 = some st2 ∧ st2.handlers = [HRef.nullShared]
        ∧ cdExit false st2 = some st3
        ∧ HRef.nullShared ∉ st3.handlers ∧ st3.handlers = [HRef.mk 0] :=
  ⟨by decide, by decide, by decide,
    claim10_shared_placeholder false stCfg 0 (_create_default_handler false)
      (by decide) (by decide) (by decide)⟩

theorem caEnter_configure (cs : Bool) (st : LogState) :
    caEnter cs (_configure_library_root_logger cs st) = caEnter cs st := by
  unfold caEnter get_library_root_logger
  rw [configure_configure]

theorem caEnter_eq_of_some (cs : Bool) (st : LogState) {n : Nat}
    {obj : HandlerObj} (hd : st.defaultHandler = some (n, obj)) :
    caEnter cs st = (⟨st.handlers, HRef.nullInst st.nextId⟩,
      { st with
          nextId := st.nextId + 1
          handlers := [HRef.nullInst st.nextId] }) := by
  have hcfg : _configure_library_root_logger cs st = st :=
    configure_of_some (by rw [hd]; rfl)
  simp [caEnter, get_library_root_logger, hcfg, foldl_removeHandler_self,
    addHandler]

theorem caExit_restores (ctx : CatchAllCtx) (st : LogState)
    (hh : st.handlers = [ctx.null_handler])
    (hnd : ctx.handlers.Nodup)
    (hdisj : ∀ h ∈ ctx.handlers, h ∉ [ctx.null_handler]) :
    caExit ctx st = { st with handlers := ctx.handlers } := by
  simp [caExit, hh, foldl_addHandler_disjoint _ _ hnd hdisj,
    removeHandler_eq_erase]

/-- Claim C2, counterexample: from a reachable starting handler configuration —
the configured state whose default handler is currently detached (exactly
what `disable_default_handler()` leaves behind) — a `catch_default_handler`
scope around a non-raising block does NOT restore the pre-scope handler
set: the pre-scope list is empty, the post-scope list holds the re-attached
default handler. -/
theorem claim2_counterexample :
    stDetached.handlers = []
    ∧ (runCatchDefault false none stDetached).map (fun r => r.1.handlers)
      = some [HRef.mk 0]
    ∧ ¬ ((runCatchDefault false none stDetached).map (fun r => r.1.handlers)
        = some stDetached.handlers) := by
  refine ⟨rfl, by decide, by decide⟩

/-- Claim C2, amended: for every starting state in which the library is
configured, the root handler list is duplicate-free, all its handler
identities predate the allocation counter, the shared placeholder is not
pre-attached, and the default handler is currently attached, a
`catch_default_handler` scope around a protected block (raising or not)
restores the pre-scope handler set up to permutation, and a
`catch_all_handler` scope restores it exactly, in original order; in both
cases the exit step runs (the run produces a result) and the in-flight
error, if any, propagates unchanged. -/
theorem claim2_scope_restores (cs : Bool) (exc : Option Unit) (st : LogState)
    (n : Nat) (obj : HandlerObj)
    (hd : st.defaultHandler = some (n, obj))
    (hmem : HRef.mk n ∈ st.handlers)
    (hnull : HRef.nullShared ∉ st.handlers)
    (hnd : st.handlers.Nodup)
    (hb : Bounded st.handlers st.nextId) :
    (∃ st2, runCatchDefault cs exc st = some (st2, exc)
      ∧ st2.handlers.Perm st.handlers)
    ∧ (runCatchAll cs exc st).1.handlers = st.handlers
    ∧ (runCatchAll cs exc st).2 = exc := by
  have hcfg : _configure_library_root_logger cs st = st :=
    configure_of_some (by rw [hd]; rfl)
  have hc : List.count (HRef.mk n) st.handlers = 1 :=
    List.count_eq_one_of_mem hnd hmem
  have hnmA : HRef.mk n ∉ st.handlers.erase (HRef.mk n) := by
    intro hmm
    have h1 := List.count_erase_self (HRef.mk n) st.handlers
    have h2 := List.count_pos_iff.mpr hmm
    omega
  have hnullA : HRef.nullShared ∉ st.handlers.erase (HRef.mk n) :=
    fun hmm => hnull (List.mem_of_mem_erase hmm)
  have hdis : disable_default_handler cs st
      = some { st with handlers := st.handlers.erase (HRef.mk n) } := by
    simp [disable_default_handler, _configure_library_root_logger, hd,
      removeHandler_eq_erase]
  have hen : ∀ X, enable_default_handler cs { st with handlers := X }
      = some { st with handlers := addHandler X (HRef.mk n) } := by
    intro X
    simp [enable_default_handler, _configure_library_root_logger, hd]
  refine ⟨?_, ?_, ?_⟩
  · refine ⟨{ st with
        handlers := st.handlers.erase (HRef.mk n) ++ [HRef.mk n] }, ?_, ?_⟩
    · by_cases hh : hasHandlers { st with handlers := st.handlers.erase (HRef.mk n) }
      · have hent : cdEnter cs st
            = some { st with handlers := st.handlers.erase (HRef.mk n) } := by
          simp [cdEnter, hdis, hh]
        have h1 := hen (st.handlers.erase (HRef.mk n))
        rw [addHandler_of_not_mem hnmA] at h1
        have hnm2 : HRef.nullShared ∉
            st.handlers.erase (HRef.mk n) ++ [HRef.mk n] := by
          simp [hnullA]
        have hex : cdExit cs { st with handlers := st.handlers.erase (HRef.mk n) }
            = some { st with
                handlers := st.handlers.erase (HRef.mk n) ++ [HRef.mk n] } := by
          simp [cdExit, h1, hnm2]
        simp [runCatchDefault, hent, hex, cdExitReturns]
      · have hent : cdEnter cs st
            = some { st with
                handlers := st.handlers.erase (HRef.mk n) ++ [HRef.nullShared] } := by
          simp [cdEnter, hdis, hh, addHandler_of_not_mem hnullA]
        have h1 := hen (st.handlers.erase (HRef.mk n) ++ [HRef.nullShared])
        have hnm2 : HRef.mk n ∉
            st.handlers.erase (HRef.mk n) ++ [HRef.nullShared] := by
          simp [hnmA]
        rw [addHandler_of_not_mem hnm2] at h1
        have hmemN : HRef.nullShared ∈
            (st.handlers.erase (HRef.mk n) ++ [HRef.nullShared]) ++ [HRef.mk n] := by
          simp
        have herase :
            (st.handlers.erase (HRef.mk n) ++ [HRef.nullShared, HRef.mk n]).erase
                HRef.nullShared
              = st.handlers.erase (HRef.mk n) ++ [HRef.mk n] := by
          rw [List.erase_append_right _ hnullA]
          simp
        have hex : cdExit cs
            { st with
                handlers := st.handlers.erase (HRef.mk n) ++ [HRef.nullShared] }
            = some { st with
                handlers := st.handlers.erase (HRef.mk n) ++ [HRef.mk n] } := by
          simp [cdExit, h1, hmemN, removeHandler_eq_erase, herase]
        simp [runCatchDefault, hent, hex, cdExitReturns]
    · exact (List.perm_append_singleton _ _).trans
        (List.perm_cons_erase hmem).symm
  all_goals {
    have hdisj : ∀ h ∈ st.handlers, h ∉ [HRef.nullInst st.nextId] := by
      intro h hm
      simp only [List.mem_singleton]
      intro he
      have hlt := hb h hm
      rw [he] at hlt
      simp [HRef.ltId] at hlt
    have hexit := caExit_restores
      ⟨st.handlers, HRef.nullInst st.nextId⟩
      { st with
          nextId := st.nextId + 1
          handlers := [HRef.nullInst st.nextId] } rfl hnd hdisj
    simp [runCatchAll, caEnter_eq_of_some cs st hd, hexit, caExitReturns]
  }

theorem claim2_witness :
    stCfg.defaultHandler = some (0, _create_default_handler false)
    ∧ HRef.mk 0 ∈ stCfg.handlers
    ∧ HRef.nullShared ∉ stCfg.handlers
    ∧ (∃ st2, runCatchDefault false (some ()) stCfg = some (st2, some ())
        ∧ st2.handlers.Perm stCfg.handlers)
    ∧ (runCatchAll false (some ()) stCfg).1.handlers = stCfg.handlers
    ∧ (runCatchAll false (some ()) stCfg).2 = some () :=
  ⟨by decide, by decide, by decide,
    (claim2_scope_restores false (some ()) stCfg 0 (_create_default_handler false)
      (by decide) (by decide) (by decide) (by decide) (by decide)).1,
    (claim2_scope_restores false (some ()) stCfg 0 (_create_default_handler false)
      (by decide) (by decide) (by decide) (by decide) (by decide)).2.1,
    (claim2_scope_restores false (some ()) stCfg 0 (_create_default_handler false)
      (by decide) (by decide) (by decide) (by decide) (by decide)).2.2⟩

theorem configure_handlers_nodup (cs : Bool) (st : LogState)
    (hnd : st.handlers.Nodup) (hb : Bounded st.handlers st.nextId) :
    (_configure_library_root_logger cs st).handlers.Nodup := by
  rcases hd : st.defaultHandler with _ | d
  · have hnm := mk_notMem_of_bounded hb
    simp only [_configure_library_root_logger, hd]
    rw [addHandler_of_not_mem hnm]
    exact ((List.perm_append_singleton _ _).nodup_iff).mpr
      (List.nodup_cons.mpr ⟨hnm, hnd⟩)
  · rw [configure_of_some (by rw [hd]; rfl)]
    exact hnd

theorem configure_handlers_bounded (cs : Bool) (st : LogState)
    (hb : Bounded st.handlers st.nextId) :
    Bounded (_configure_library_root_logger cs st).handlers
      (_configure_library_root_logger cs st).nextId := by
  rcases hd : st.defaultHandler with _ | d
  · have hnm := mk_notMem_of_bounded hb
    simp only [_configure_library_root_logger, hd]
    rw [addHandler_of_not_mem hnm]
    intro h hm
    rcases List.mem_append.mp hm with hm1 | hm1
    · exact bounded_mono hb (Nat.le_succ _) h hm1
    · rw [List.mem_singleton.mp hm1]
      simp [HRef.ltId]
  · rw [configure_of_some (by rw [hd]; rfl)]
    exact hb

/-- Claim C5: with a `catch_all_handler` scope already active, entering a second
one and exiting the inner scope leaves the root logger holding exactly the
outer scope's placeholder handler — not the original handler set (the
outer scope's snapshot) — and the original handlers come back only when
the outer scope also exits. -/
theorem claim5_nested_catch_all (cs : Bool) (st : LogState)
    (hnd : st.handlers.Nodup) (hb : Bounded st.handlers st.nextId) :
    ∃ ctx1 s1 ctx2 s2,
      caEnter cs st = (ctx1, s1)
      ∧ caEnter cs s1 = (ctx2, s2)
      ∧ (caExit ctx2 s2).handlers = [ctx1.null_handler]
      ∧ (caExit ctx2 s2).handlers ≠ ctx1.handlers
      ∧ (caExit ctx1 (caExit ctx2 s2)).handlers = ctx1.handlers := by
  have hndC := configure_handlers_nodup cs st hnd hb
  have hbC := configure_handlers_bounded cs st hb
  rcases hds : (_configure_library_root_logger cs st).defaultHandler with _ | d
  · have h0 := configure_slot_isSome cs st
    rw [hds] at h0
    simp at h0
  obtain ⟨n, obj⟩ := d
  have henter1 := caEnter_eq_of_some cs _ hds
  rw [caEnter_configure] at henter1
  set stC := _configure_library_root_logger cs st with hstC
  set k := stC.nextId with hk
  refine ⟨⟨stC.handlers, HRef.nullInst k⟩,
    { stC with nextId := k + 1, handlers := [HRef.nullInst k] },
    ⟨[HRef.nullInst k], HRef.nullInst (k + 1)⟩,
    { stC with nextId := k + 2, handlers := [HRef.nullInst (k + 1)] },
    henter1, ?_, ?_, ?_, ?_⟩
  · have hd1 : ({ stC with
        nextId := k + 1
        handlers := [HRef.nullInst k] } : LogState).defaultHandler
        = some (n, obj) := hds
    exact caEnter_eq_of_some cs _ hd1
  · have hexit2 := caExit_restores
      ⟨[HRef.nullInst k], HRef.nullInst (k + 1)⟩
      { stC with
          nextId := k + 2
          handlers := [HRef.nullInst (k + 1)] }
      rfl (List.nodup_singleton _) (by simp)
    rw [hexit2]
  · have hexit2 := caExit_restores
      ⟨[HRef.nullInst k], HRef.nullInst (k + 1)⟩
      { stC with
          nextId := k + 2
          handlers := [HRef.nullInst (k + 1)] }
      rfl (List.nodup_singleton _) (by simp)
    rw [hexit2]
    intro he
    have he2 : ([HRef.nullInst k] : List HRef) = stC.handlers := he
    have hm : HRef.nullInst k ∈ stC.handlers := by
      rw [← he2]
      exact List.mem_cons_self _ _
    exact nullInst_notMem_of_bounded hbC hm
  · have hexit2 := caExit_restores
      ⟨[HRef.nullInst k], HRef.nullInst (k + 1)⟩
      { stC with
          nextId := k + 2
          handlers := [HRef.nullInst (k + 1)] }
      rfl (List.nodup_singleton _) (by simp)
    rw [hexit2]
    show (caExit ⟨stC.handlers, HRef.nullInst k⟩
        { stC with nextId := k + 2, handlers := [HRef.nullInst k] }).handlers
      = stC.handlers
    have hdisj : ∀ h ∈ stC.handlers, h ∉ [HRef.nullInst k] := by
      intro h hm
      simp only [List.mem_singleton]
      intro he
      have hlt := hbC h hm
      rw [he] at hlt
      simp [HRef.ltId] at hlt
    have hexit1 := caExit_restores
      ⟨stC.handlers, HRef.nullInst k⟩
      { stC with
          nextId := k + 2
          handlers := [HRef.nullInst k] }
      rfl hndC hdisj
    rw [hexit1]

theorem claim5_witness :
    stCfg.handlers.Nodup
    ∧ Bounded stCfg.handlers stCfg.nextId
    ∧ ∃ ctx1 s1 ctx2 s2,
        caEnter false stCfg = (ctx1, s1)
        ∧ caEnter false s1 = (ctx2, s2)
        ∧ (caExit ctx2 s2).handlers = [ctx1.null_handler]
        ∧ (caExit ctx2 s2).handlers ≠ ctx1.handlers
        ∧ (caExit ctx1 (caExit ctx2 s2)).handlers = ctx1.handlers :=
  ⟨by decide, by decide,
    claim5_nested_catch_all false stCfg (by decide) (by decide)⟩

end PyTemplateLogging
